import Mathlib

/-!
Verification of the `quantization_pruning.ipynb` model-compression notebook.

The notebook trains a baseline MNIST classifier and then applies three
compression techniques (post-training quantization, quantization-aware
training, magnitude pruning), recording model sizes and test accuracies in
two insertion-ordered dictionaries and writing a set of artifact files.

We shallowly embed the authored Python functions (`print_metric`,
`get_gzipped_model_size`, `model_builder`, `evaluate_tflite_model`,
`convert_tflite`) and the notebook's top-level cell sequence as Lean
definitions, and prove or refute the specification's claims about them.
Framework calls (TensorFlow training, TF Lite conversion and inference,
file-system primitives) are modelled abstractly as parameters, since their
internals are not part of this repository.
-/

set_option autoImplicit false

namespace QuantizationPruning

/-! ### Filename constants (notebook cell "String constants for model filenames") -/

def FILE_WEIGHTS : String := "baseline_weights.h5"

def FILE_NON_QUANTIZED_H5 : String := "non_quantized.h5"

def FILE_NON_QUANTIZED_TFLITE : String := "non_quantized.tflite"

def FILE_PT_QUANTIZED : String := "post_training_quantized.tflite"

def FILE_QAT_QUANTIZED : String := "quant_aware_quantized.tflite"

def FILE_PRUNED_MODEL_H5 : String := "pruned_model.h5"

def FILE_PRUNED_QUANTIZED_TFLITE : String := "pruned_quantized.tflite"

def FILE_PRUNED_NON_QUANTIZED_TFLITE : String := "pruned_non_quantized.tflite"

/-- The eight filename constants declared at the top of the notebook. -/
def declaredFileConstants : List String :=
  [FILE_WEIGHTS, FILE_NON_QUANTIZED_H5, FILE_NON_QUANTIZED_TFLITE,
   FILE_PT_QUANTIZED, FILE_QAT_QUANTIZED, FILE_PRUNED_MODEL_H5,
   FILE_PRUNED_QUANTIZED_TFLITE, FILE_PRUNED_NON_QUANTIZED_TFLITE]

/-! ### Python dictionaries

The two metric tables `MODEL_SIZE` and `ACCURACY` are Python `dict`s.  A
Python dict is insertion-ordered: we model it as an association list where
assigning to a fresh key appends and assigning to a present key updates the
value in place, keeping the key's position. -/

/-- Assignment `d[k] = v` on a Python dict modelled as an insertion-ordered
association list. -/
def dictAssign {V : Type} (d : List (String × V)) (k : String) (v : V) :
    List (String × V) :=
  match d with
  | [] => [(k, v)]
  | (k', v') :: rest =>
      if k' = k then (k', v) :: rest else (k', v') :: dictAssign rest k v

/-- The keys of a dict, in insertion order. -/
def dictKeys {V : Type} (d : List (String × V)) : List String :=
  d.map Prod.fst

/-- Lookup `d[k]` (first, hence unique, binding of the key). -/
def dictLookup {V : Type} (d : List (String × V)) (k : String) : Option V :=
  match d with
  | [] => none
  | (k', v') :: rest => if k' = k then some v' else dictLookup rest k

/-! ### `print_metric`

```python
def print_metric(metric_dict, metric_name):
  '''Prints key and values stored in a dictionary'''
  for metric, value in metric_dict.items():
    print(f'{metric_name} for {metric}: {value}')
```

The loop iterates over `.items()` (insertion order) and prints one line per
entry.  We embed it as a recursion producing the list of printed lines, one
per iteration, with the value rendered by a caller-supplied `toStr`
(Python's `str`). -/

def print_metric {V : Type} (toStr : V → String) :
    List (String × V) → String → List String
  | [], _ => []
  | (metric, value) :: rest, metric_name =>
      (metric_name ++ " for " ++ metric ++ ": " ++ toStr value)
        :: print_metric toStr rest metric_name

/-- The call as a state transformer: Python passes `metric_dict` by
reference, so the post-call dictionary is part of the modelled effect.  The
loop body only reads `.items()`; no statement assigns into the dict. -/
def print_metric_run {V : Type} (toStr : V → String)
    (metric_dict : List (String × V)) (metric_name : String) :
    List String × List (String × V) :=
  (print_metric toStr metric_dict metric_name, metric_dict)

/-! ### Pixel normalization (notebook cell "Load Dataset")

```python
train_images = train_images / 255.0
test_images = test_images / 255.0
```

MNIST pixels are 8-bit values in `0..255`; we model them as naturals and
the normalized values as rationals. -/

/-- One pixel of the `images / 255.0` normalization. -/
def normalize_pixel (p : Nat) : Rat := (p : Rat) / 255

/-- An image is a matrix of raw 8-bit pixel values; normalization divides
each by `255.0` elementwise (numpy broadcasting). -/
def normalize_image (img : List (List Nat)) : List (List Rat) :=
  img.map (fun row => row.map normalize_pixel)

/-- Normalizing a whole dataset split (train or test). -/
def normalize_images (imgs : List (List (List Nat))) : List (List (List Rat)) :=
  imgs.map normalize_image

/-- An 8-bit image: every pixel is at most 255. -/
def eightBitImage (img : List (List Nat)) : Prop :=
  ∀ row ∈ img, ∀ p ∈ row, p ≤ 255

/-! ### `evaluate_tflite_model`

```python
def evaluate_tflite_model(filename, x_test, y_test):
  interpreter = tf.lite.Interpreter(model_path=filename)
  interpreter.allocate_tensors()
  input_index = interpreter.get_input_details()[0]["index"]
  output_index = interpreter.get_output_details()[0]["index"]
  prediction_digits = []
  for i, test_image in enumerate(x_test):
    test_image = np.expand_dims(test_image, axis=0).astype(np.float32)
    interpreter.set_tensor(input_index, test_image)
    interpreter.invoke()
    output = interpreter.tensor(output_index)
    digit = np.argmax(output()[0])
    prediction_digits.append(digit)
  prediction_digits = np.array(prediction_digits)
  accuracy = (prediction_digits == y_test).mean()
  return accuracy
```

The TF Lite interpreter loaded from the file is opaque to this repository;
we model the `set_tensor` / `invoke` / `tensor` round trip as a pure
function `infer` from an input batch to a batch of output vectors, and the
`astype(np.float32)` cast as an abstract map `cast32` on the image type. -/

/-- The interpreter built from a model file: feeding it a batch of images
yields a batch of class-probability vectors. -/
structure LiteInterpreter (Img : Type) where
  infer : List Img → List (List Rat)

/-- Helper for `np.argmax`: index of the first occurrence of the maximum.  Tail of the
scan: `i` is the index of the next element, `best` the current argmax and
`bv` its value. -/
def np_argmax_go : List Rat → Nat → Nat → Rat → Nat
  | [], _, best, _ => best
  | x :: xs, i, best, bv =>
      if bv < x then np_argmax_go xs (i + 1) i x
      else np_argmax_go xs (i + 1) best bv

/-- Embedding of `np.argmax` on a vector (`0` on the empty vector). -/
def np_argmax : List Rat → Nat
  | [] => 0
  | x :: xs => np_argmax_go xs 1 0 x

/-- The `for i, test_image in enumerate(x_test)` loop, accumulating
`prediction_digits`. Each image is wrapped into a batch of one
(`np.expand_dims(_, axis=0)`), cast to float32, fed to the interpreter, and
the argmax of the first (only) output of the batch is appended. -/
def prediction_loop {Img : Type} (interp : LiteInterpreter Img)
    (cast32 : Img → Img) : List Img → List Nat → List Nat
  | [], prediction_digits => prediction_digits
  | test_image :: rest, prediction_digits =>
      let batched := [test_image].map cast32
      let output := interp.infer batched
      let digit := np_argmax (output.getD 0 [])
      prediction_loop interp cast32 rest (prediction_digits ++ [digit])

/-- Embedding of `evaluate_tflite_model`, with the interpreter loaded from `filename`
abstracted into `interp`.  `(prediction_digits == y_test).mean()` on
equal-length arrays is the match count divided by the array length. -/
def evaluate_tflite_model {Img : Type} (interp : LiteInterpreter Img)
    (cast32 : Img → Img) (x_test : List Img) (y_test : List Nat) : Rat :=
  let prediction_digits := prediction_loop interp cast32 x_test []
  let correct := (prediction_digits.zip y_test).countP (fun p => p.1 == p.2)
  (correct : Rat) / (prediction_digits.length : Rat)

/-! ### File-system model

Artifact files live in a flat directory.  A file's content is either plain
bytes or a ZIP archive (a list of named members with a compression method);
`get_gzipped_model_size`, despite its name, builds a ZIP archive with
DEFLATE compression via `zipfile.ZipFile(..., compression=zipfile.ZIP_DEFLATED)`,
not a gzip stream. -/

inductive CompressionMethod : Type
  | ZIP_DEFLATED
  | ZIP_STORED
deriving DecidableEq, Repr

inductive FileContent : Type
  | plain (data : List Nat)
  | zipArchive (method : CompressionMethod) (entries : List (String × List Nat))
deriving DecidableEq, Repr

/-- The directory: filename-to-content map with Python-dict semantics. -/
def FileSys : Type := List (String × FileContent)

/-- Look a filename up in the directory. -/
def fsLookup (fs : FileSys) (name : String) : Option FileContent :=
  dictLookup fs name

/-- Writing a file: overwrite in place if present, create otherwise. -/
def fsWrite (fs : FileSys) (name : String) (c : FileContent) : FileSys :=
  dictAssign fs name c

/-! ### `convert_tflite`

```python
def convert_tflite(model, filename, quantize=False):
    converter = tf.lite.TFLiteConverter.from_keras_model(model)
    if quantize:
        converter.optimizations = [tf.lite.Optimize.DEFAULT]
    tflite_model = converter.convert()
    with open(filename, 'wb') as f:
        f.write(tflite_model)
```

There is no `return` statement, so the call evaluates to `None`; we give
the call's value the type `Option (List Nat)` (`some` bytes or `None`).
The converter object and `converter.convert()` belong to the framework and
are abstracted into `ConvertEnv`. -/

inductive OptimizeFlag : Type
  | DEFAULT
deriving DecidableEq, Repr

/-- The TF Lite converter object: the wrapped Keras model plus its
`optimizations` attribute (`none` = never assigned). -/
structure TFLiteConverter (Model : Type) where
  model : Model
  optimizations : Option (List OptimizeFlag)

/-- Framework side of the conversion: building a converter from a Keras
model and running `converter.convert()` to bytes. -/
structure ConvertEnv (Model : Type) where
  from_keras_model : Model → TFLiteConverter Model
  runConvert : TFLiteConverter Model → List Nat

/-- The converter as configured by the body of `convert_tflite` just before
`converter.convert()` is called: `optimizations` is assigned
`[tf.lite.Optimize.DEFAULT]` when `quantize` is true and is not touched
otherwise. -/
def configure_converter {Model : Type} (env : ConvertEnv Model) (model : Model)
    (quantize : Bool) : TFLiteConverter Model :=
  let converter := env.from_keras_model model
  if quantize then { converter with optimizations := some [OptimizeFlag.DEFAULT] }
  else converter

/-- Embedding of `convert_tflite`: returns the post-call directory together with the
value of the call expression. -/
def convert_tflite {Model : Type} (env : ConvertEnv Model) (fs : FileSys)
    (model : Model) (filename : String) (quantize : Bool) :
    FileSys × Option (List Nat) :=
  let converter := configure_converter env model quantize
  let tflite_model := env.runConvert converter
  (fsWrite fs filename (FileContent.plain tflite_model), none)

/-! ### `get_gzipped_model_size`

```python
def get_gzipped_model_size(file):
  '''Returns size of gzipped model, in bytes.'''
  _, zipped_file = tempfile.mkstemp('.zip')
  with zipfile.ZipFile(zipped_file, 'w', compression=zipfile.ZIP_DEFLATED) as f:
    f.write(file)

  return os.path.getsize(zipped_file)
```

`tempfile.mkstemp` creates a fresh (empty) file whose name collides with no
existing file; the choice of name is abstracted into `mkstemp_name`.
`f.write(file)` reads the file at path `file` and stores it in the archive
under that same name; a missing input file raises (modelled as `none`).
The archive is never removed.  The size in bytes of a DEFLATE-compressed
archive is framework territory, abstracted into `archiveSize`. -/

structure ZipEnv : Type where
  mkstemp_name : FileSys → String
  archiveSize : CompressionMethod → List (String × List Nat) → Nat

/-- Embedding of `os.path.getsize`, with archive sizes supplied by the environment. -/
def contentSize (env : ZipEnv) : FileContent → Nat
  | FileContent.plain data => data.length
  | FileContent.zipArchive method entries => env.archiveSize method entries

def os_path_getsize (env : ZipEnv) (fs : FileSys) (name : String) : Option Nat :=
  (fsLookup fs name).map (contentSize env)

/-- Embedding of `get_gzipped_model_size` as a step on the directory, returning the
post-call directory and the returned byte count (`none` when an underlying
call raises). -/
def get_gzipped_model_size (env : ZipEnv) (fs : FileSys) (file : String) :
    Option (FileSys × Nat) :=
  let zipped_file := env.mkstemp_name fs
  let fs1 := fsWrite fs zipped_file (FileContent.plain [])
  match fsLookup fs1 file with
  | some (FileContent.plain data) =>
      let archive := FileContent.zipArchive CompressionMethod.ZIP_DEFLATED [(file, data)]
      let fs2 := fsWrite fs1 zipped_file archive
      match os_path_getsize env fs2 zipped_file with
      | some n => some (fs2, n)
      | none => none
  | _ => none

/-! ### Exception propagation

None of the authored functions contains a `try`/`except` (or any other
exception transformation): each is a straight-line sequence of framework
and I/O calls.  To settle the error-handling claim we re-embed each
authored function in the `Except` monad, with every underlying framework
or I/O call a parameter that may raise (`Except.error`), exactly at the
call sites the Python body has, and prove that a raise at any call site
propagates to the caller unchanged. -/

/-- Fallible primitives used by `get_gzipped_model_size`:
`tempfile.mkstemp`, `ZipFile(...).write`, `os.path.getsize`. -/
structure ZipPrims (E : Type) : Type where
  mkstemp : Except E String
  zipWriteEntry : String → String → Except E Unit
  getsize : String → Except E Nat

def get_gzipped_model_size_exc {E : Type} (io : ZipPrims E) (file : String) :
    Except E Nat := do
  let zipped_file ← io.mkstemp
  io.zipWriteEntry zipped_file file
  io.getsize zipped_file

/-- Fallible primitives used by `convert_tflite`:
`TFLiteConverter.from_keras_model`, `converter.convert()`, and the
`open(filename, 'wb')` / `f.write` block. -/
structure ConvertPrims (E Model Bytes : Type) : Type where
  from_keras_model : Model → Except E (TFLiteConverter Model)
  runConvert : TFLiteConverter Model → Except E Bytes
  openWrite : String → Bytes → Except E Unit

def convert_tflite_exc {E Model Bytes : Type} (p : ConvertPrims E Model Bytes)
    (model : Model) (filename : String) (quantize : Bool) :
    Except E (Option Bytes) := do
  let converter ← p.from_keras_model model
  let converter :=
    if quantize then { converter with optimizations := some [OptimizeFlag.DEFAULT] }
    else converter
  let tflite_model ← p.runConvert converter
  p.openWrite filename tflite_model
  return none

/-- Fallible primitives used by `evaluate_tflite_model`:
`tf.lite.Interpreter`, `allocate_tensors`, the two detail lookups,
`set_tensor`, `invoke`, and reading the output tensor.  `H` is the
interpreter handle. -/
structure InterpPrims (E Img H : Type) : Type where
  mkInterpreter : String → Except E H
  allocate_tensors : H → Except E Unit
  input_index : H → Except E Nat
  output_index : H → Except E Nat
  set_tensor : H → Nat → List Img → Except E Unit
  invoke : H → Except E Unit
  read_output : H → Nat → Except E (List (List Rat))
  cast32 : Img → Img

def prediction_loop_exc {E Img H : Type} (p : InterpPrims E Img H) (h : H)
    (input_index output_index : Nat) :
    List Img → List Nat → Except E (List Nat)
  | [], prediction_digits => pure prediction_digits
  | test_image :: rest, prediction_digits => do
      p.set_tensor h input_index ([test_image].map p.cast32)
      p.invoke h
      let output ← p.read_output h output_index
      let digit := np_argmax (output.getD 0 [])
      prediction_loop_exc p h input_index output_index rest (prediction_digits ++ [digit])

def evaluate_tflite_model_exc {E Img H : Type} (p : InterpPrims E Img H)
    (filename : String) (x_test : List Img) (y_test : List Nat) :
    Except E Rat := do
  let interpreter ← p.mkInterpreter filename
  p.allocate_tensors interpreter
  let input_index ← p.input_index interpreter
  let output_index ← p.output_index interpreter
  let prediction_digits ← prediction_loop_exc p interpreter input_index output_index x_test []
  let correct := (prediction_digits.zip y_test).countP (fun q => q.1 == q.2)
  return (correct : Rat) / (prediction_digits.length : Rat)

/-- Embedding of `print_metric` with the `print` call a fallible primitive. -/
def print_metric_exc {E V : Type} (printLine : String → Except E Unit)
    (toStr : V → String) :
    List (String × V) → String → Except E Unit
  | [], _ => pure ()
  | (metric, value) :: rest, metric_name => do
      printLine (metric_name ++ " for " ++ metric ++ ": " ++ toStr value)
      print_metric_exc printLine toStr rest metric_name

/-- Fallible primitives used by `model_builder`: the six Keras layer
constructors and `keras.Sequential`. -/
structure KerasPrims (E Layer Model : Type) : Type where
  inputLayer : Except E Layer
  reshape : Except E Layer
  conv2d : Except E Layer
  maxPooling2d : Except E Layer
  flatten : Except E Layer
  dense : Except E Layer
  sequential : List Layer → Except E Model

def model_builder_exc {E Layer Model : Type} (k : KerasPrims E Layer Model) :
    Except E Model := do
  let l1 ← k.inputLayer
  let l2 ← k.reshape
  let l3 ← k.conv2d
  let l4 ← k.maxPooling2d
  let l5 ← k.flatten
  let l6 ← k.dense
  k.sequential [l1, l2, l3, l4, l5, l6]

/-! ### The notebook's top-level workflow

The notebook body is a fixed sequence of top-level statements (one list
entry per framework call or dict operation, in source order).  We record
the structural effect of each statement: which files are written, which
keys are assigned into `MODEL_SIZE` / `ACCURACY` and from which
measurement, when the two dicts are rebound to `{}`, and what is printed.
The numeric values of the measurements are runtime results of the
framework, so a table entry stores a symbolic description of the
measurement instead of a number. -/

/-- A value stored in `MODEL_SIZE` or `ACCURACY`: which measurement
produced it. -/
inductive MVal : Type
  | rawSize (file : String)
  | gzSize (file : String)
  | kerasAcc (model : String)
  | tfliteAcc (file : String)
deriving DecidableEq, Repr

/-- Rendering of a measurement for the printed line (stands in for
Python's `str` of the runtime number). -/
def MVal.render : MVal → String
  | MVal.rawSize file => "os.path.getsize(" ++ file ++ ")"
  | MVal.gzSize file => "get_gzipped_model_size(" ++ file ++ ")"
  | MVal.kerasAcc model => model ++ ".evaluate(test_images, test_labels)"
  | MVal.tfliteAcc file => "evaluate_tflite_model(" ++ file ++ ", ...)"

/-- One top-level notebook statement. -/
inductive Act : Type
  | loadData
  | buildModel (m : String)
  | saveWeights (m file : String)
  | loadWeights (m file : String)
  | compileModel (m : String)
  | fitModel (m : String)
  | evalKeras (m key : String)
  | saveModel (m file : String)
  | sizeRaw (key file : String)
  | sizeGz (key file : String)
  | printSize (metricName : String)
  | printAcc (metricName : String)
  | convertModel (m file : String) (quantize : Bool)
  | evalTflite (file key : String)
  | resetSize
  | resetAcc
  | quantizeModel (src dst : String)
  | pruneWrap (src dst : String)
  | stripPruning (src dst : String)
deriving DecidableEq, Repr

/-- The notebook's interpreter state. -/
structure NBState : Type where
  dataLoaded : Bool
  filesWritten : List String
  tempZipCount : Nat
  modelSizeTab : List (String × MVal)
  accuracyTab : List (String × MVal)
  printedLines : List String
deriving DecidableEq, Repr

def initState : NBState :=
  { dataLoaded := false, filesWritten := [], tempZipCount := 0,
    modelSizeTab := [], accuracyTab := [], printedLines := [] }

/-- Effect of one statement on the notebook state. -/
def stepAct (s : NBState) : Act → NBState
  | Act.loadData => { s with dataLoaded := true }
  | Act.buildModel _ => s
  | Act.saveWeights _ file => { s with filesWritten := s.filesWritten ++ [file] }
  | Act.loadWeights _ _ => s
  | Act.compileModel _ => s
  | Act.fitModel _ => s
  | Act.evalKeras m key =>
      { s with accuracyTab := dictAssign s.accuracyTab key (MVal.kerasAcc m) }
  | Act.saveModel _ file => { s with filesWritten := s.filesWritten ++ [file] }
  | Act.sizeRaw key file =>
      { s with modelSizeTab := dictAssign s.modelSizeTab key (MVal.rawSize file) }
  | Act.sizeGz key file =>
      { s with modelSizeTab := dictAssign s.modelSizeTab key (MVal.gzSize file),
               tempZipCount := s.tempZipCount + 1 }
  | Act.printSize name =>
      { s with printedLines := s.printedLines ++ print_metric MVal.render s.modelSizeTab name }
  | Act.printAcc name =>
      { s with printedLines := s.printedLines ++ print_metric MVal.render s.accuracyTab name }
  | Act.convertModel _ file _ => { s with filesWritten := s.filesWritten ++ [file] }
  | Act.evalTflite file key =>
      { s with accuracyTab := dictAssign s.accuracyTab key (MVal.tfliteAcc file) }
  | Act.resetSize => { s with modelSizeTab := [] }
  | Act.resetAcc => { s with accuracyTab := [] }
  | Act.quantizeModel _ _ => s
  | Act.pruneWrap _ _ => s
  | Act.stripPruning _ _ => s

def runTrace (acts : List Act) : NBState :=
  acts.foldl stepAct initState

/-- The notebook's cell sequence, one entry per top-level statement, in
source order. -/
def notebookTrace : List Act := [
  -- cell: Load Dataset
  Act.loadData,
  -- cell: create the baseline model, save initial weights
  Act.buildModel "baseline_model",
  Act.saveWeights "baseline_model" FILE_WEIGHTS,
  -- cell: compile, train, evaluate the baseline
  Act.compileModel "baseline_model",
  Act.fitModel "baseline_model",
  Act.evalKeras "baseline_model" "baseline Keras model",
  -- cell: save the Keras model, record and print size and accuracy
  Act.saveModel "baseline_model" FILE_NON_QUANTIZED_H5,
  Act.sizeRaw "baseline h5" FILE_NON_QUANTIZED_H5,
  Act.printAcc "test accuracy",
  Act.printSize "model size in bytes",
  -- cells: convert the baseline to TF Lite, record size and accuracy
  Act.convertModel "baseline_model" FILE_NON_QUANTIZED_TFLITE false,
  Act.sizeRaw "non quantized tflite" FILE_NON_QUANTIZED_TFLITE,
  Act.printSize "model size in bytes",
  Act.evalTflite FILE_NON_QUANTIZED_TFLITE "non quantized tflite",
  Act.printAcc "test accuracy",
  -- cell: post-training quantization
  Act.convertModel "baseline_model" FILE_PT_QUANTIZED true,
  Act.sizeRaw "post training quantized tflite" FILE_PT_QUANTIZED,
  Act.printSize "model size",
  Act.evalTflite FILE_PT_QUANTIZED "post training quantized tflite",
  Act.printAcc "test accuracy",
  -- cells: quantization-aware training
  Act.buildModel "model_to_quantize",
  Act.loadWeights "model_to_quantize" FILE_WEIGHTS,
  Act.quantizeModel "model_to_quantize" "q_aware_model",
  Act.compileModel "q_aware_model",
  Act.fitModel "q_aware_model",
  -- cell: "Reinitialize the dictionary", QAT accuracies
  Act.resetAcc,
  Act.evalKeras "q_aware_model" "quantization aware non-quantized",
  Act.printAcc "test accuracy",
  Act.convertModel "q_aware_model" FILE_QAT_QUANTIZED true,
  Act.evalTflite FILE_QAT_QUANTIZED "quantization aware quantized",
  Act.printAcc "test accuracy",
  -- cells: pruning
  Act.pruneWrap "baseline_model" "model_for_pruning",
  Act.compileModel "model_for_pruning",
  Act.fitModel "model_for_pruning",
  Act.stripPruning "model_for_pruning" "model_for_export",
  -- cell: save pruned model, raw sizes (dict rebound to {})
  Act.saveModel "model_for_export" FILE_PRUNED_MODEL_H5,
  Act.resetSize,
  Act.sizeRaw "baseline h5" FILE_NON_QUANTIZED_H5,
  Act.sizeRaw "pruned non quantized h5" FILE_PRUNED_MODEL_H5,
  Act.printSize "model_size in bytes",
  -- cell: gzipped sizes (dict rebound to {} again)
  Act.resetSize,
  Act.sizeGz "baseline h5" FILE_NON_QUANTIZED_H5,
  Act.sizeGz "pruned non quantized h5" FILE_PRUNED_MODEL_H5,
  Act.printSize "gzipped model size in bytes",
  -- cell: convert and quantize the pruned model
  Act.convertModel "model_for_export" FILE_PRUNED_QUANTIZED_TFLITE true,
  Act.sizeGz "pruned quantized tflite" FILE_PRUNED_QUANTIZED_TFLITE,
  Act.printSize "gzipped model size in bytes",
  -- cell: pruned-model accuracies (dict rebound to {})
  Act.resetAcc,
  Act.evalKeras "model_for_pruning" "pruned model h5",
  Act.evalTflite FILE_PRUNED_QUANTIZED_TFLITE "pruned and quantized tflite",
  Act.printAcc "accuracy"
]

/-- Final state after running every cell of the notebook. -/
def notebookFinal : NBState := runTrace notebookTrace

/-! Classifiers on statements, for the ordering and bookkeeping claims. -/

def Act.isLoadData : Act → Bool
  | Act.loadData => true
  | _ => false

def Act.isFit : Act → Bool
  | Act.fitModel _ => true
  | _ => false

def Act.isConvert : Act → Bool
  | Act.convertModel _ _ _ => true
  | _ => false

/-- Does this statement write the named file? -/
def Act.writesFile (file : String) : Act → Bool
  | Act.saveWeights _ f => f == file
  | Act.saveModel _ f => f == file
  | Act.convertModel _ f _ => f == file
  | _ => false

/-- Does this statement measure the named file (its size on disk or its
TF Lite accuracy)? -/
def Act.measuresFile (file : String) : Act → Bool
  | Act.sizeRaw _ f => f == file
  | Act.sizeGz _ f => f == file
  | Act.evalTflite f _ => f == file
  | _ => false

/-- Does this statement record a model size for the named file? -/
def Act.sizesFile (file : String) : Act → Bool
  | Act.sizeRaw _ f => f == file
  | Act.sizeGz _ f => f == file
  | _ => false

def Act.isResetAcc : Act → Bool
  | Act.resetAcc => true
  | _ => false

def Act.isPrintAcc : Act → Bool
  | Act.printAcc _ => true
  | _ => false

def Act.isPrintSize : Act → Bool
  | Act.printSize _ => true
  | _ => false

def Act.isResetSize : Act → Bool
  | Act.resetSize => true
  | _ => false

/-- Statements belonging to the post-training-quantization technique. -/
def Act.inPTQ : Act → Bool
  | Act.convertModel _ f _ => f == FILE_PT_QUANTIZED
  | Act.sizeRaw _ f => f == FILE_PT_QUANTIZED
  | Act.evalTflite f _ => f == FILE_PT_QUANTIZED
  | _ => false

/-- Statements belonging to the quantization-aware-training technique. -/
def Act.inQAT : Act → Bool
  | Act.buildModel m => m == "model_to_quantize"
  | Act.loadWeights m _ => m == "model_to_quantize"
  | Act.quantizeModel _ d => d == "q_aware_model"
  | Act.compileModel m => m == "q_aware_model"
  | Act.fitModel m => m == "q_aware_model"
  | Act.evalKeras m _ => m == "q_aware_model"
  | Act.convertModel m _ _ => m == "q_aware_model"
  | Act.evalTflite f _ => f == FILE_QAT_QUANTIZED
  | _ => false

/-- Statements belonging to the pruning technique. -/
def Act.inPruning : Act → Bool
  | Act.pruneWrap _ d => d == "model_for_pruning"
  | Act.compileModel m => m == "model_for_pruning"
  | Act.fitModel m => m == "model_for_pruning"
  | Act.stripPruning m _ => m == "model_for_pruning"
  | Act.saveModel m _ => m == "model_for_export"
  | Act.convertModel m _ _ => m == "model_for_export"
  | Act.evalKeras m _ => m == "model_for_pruning"
  | Act.evalTflite f _ => f == FILE_PRUNED_QUANTIZED_TFLITE
  | Act.sizeRaw _ f => f == FILE_PRUNED_MODEL_H5
  | Act.sizeGz _ f => f == FILE_PRUNED_MODEL_H5 || f == FILE_PRUNED_QUANTIZED_TFLITE
  | _ => false

/-! ## Helper lemmas -/

theorem print_metric_eq_map {V : Type} (toStr : V → String)
    (d : List (String × V)) (n : String) :
    print_metric toStr d n = d.map (fun kv => n ++ " for " ++ kv.1 ++ ": " ++ toStr kv.2) := by
  induction d with
  | nil => rfl
  | cons kv rest ih => cases kv; simp [print_metric, ih]

theorem prediction_loop_eq {Img : Type} (interp : LiteInterpreter Img)
    (cast32 : Img → Img) (xs : List Img) (acc : List Nat) :
    prediction_loop interp cast32 xs acc =
      acc ++ xs.map (fun img => np_argmax ((interp.infer [cast32 img]).getD 0 [])) := by
  induction xs generalizing acc with
  | nil => simp [prediction_loop]
  | cons x rest ih => simp [prediction_loop, ih]

theorem dictLookup_assign_self {V : Type} (d : List (String × V)) (k : String) (v : V) :
    dictLookup (dictAssign d k v) k = some v := by
  induction d with
  | nil => simp [dictAssign, dictLookup]
  | cons kv rest ih =>
      cases kv with
      | mk k' v' =>
          by_cases h : k' = k
          · simp [dictAssign, dictLookup, h]
          · simp [dictAssign, dictLookup, h, ih]

theorem dictLookup_assign_other {V : Type} (d : List (String × V)) (k g : String) (v : V)
    (hne : g ≠ k) :
    dictLookup (dictAssign d k v) g = dictLookup d g := by
  have hkg : k ≠ g := fun h => hne h.symm
  induction d with
  | nil => simp [dictAssign, dictLookup, hkg]
  | cons kv rest ih =>
      cases kv with
      | mk k' v' =>
          by_cases h : k' = k
          · subst h
            simp [dictAssign, dictLookup, hkg]
          · simp [dictAssign, dictLookup, h, ih]

theorem normalize_pixel_bounds (p : Nat) (h : p ≤ 255) :
    0 ≤ normalize_pixel p ∧ normalize_pixel p ≤ 1 := by
  unfold normalize_pixel
  constructor
  · positivity
  · rw [div_le_one (by norm_num)]
    exact_mod_cast h

/-! ## Claims -/

/-- C1: `evaluate_tflite_model` runs single-example inference: the i-th
prediction is the argmax of the interpreter's output on the batch
`[cast32 (x_test[i])]` (batch dimension of one, float32 cast), predictions
are produced in dataset order, and the returned accuracy is the number of
predictions equal to the ground-truth label divided by the number of test
images. -/
theorem evaluate_tflite_model_spec {Img : Type} (interp : LiteInterpreter Img)
    (cast32 : Img → Img) (x_test : List Img) (y_test : List Nat)
    (hlen : x_test.length = y_test.length) :
    evaluate_tflite_model interp cast32 x_test y_test =
      (((x_test.map (fun img => np_argmax ((interp.infer [cast32 img]).getD 0 []))).zip
          y_test).countP (fun p => p.1 == p.2) : Rat) / (y_test.length : Rat) := by
  unfold evaluate_tflite_model
  rw [prediction_loop_eq]
  simp [hlen]

/-- A concrete interpreter for the accuracy-spec witness: class-0 score is
the pixel value, class-1 score is one. -/
def demoInterp : LiteInterpreter Nat :=
  ⟨fun batch => batch.map (fun v => [(v : Rat), 1])⟩

/-- Witness for C1 at a two-image test set. -/
theorem evaluate_tflite_model_spec_witness :
    ([5, 0] : List Nat).length = ([1, 0] : List Nat).length ∧
    evaluate_tflite_model demoInterp id [5, 0] [1, 0] =
      ((((([5, 0] : List Nat).map
            (fun img => np_argmax ((demoInterp.infer [id img]).getD 0 []))).zip
          ([1, 0] : List Nat)).countP (fun p => p.1 == p.2) : Nat) : Rat) /
        (([1, 0] : List Nat).length : Rat) :=
  ⟨rfl, evaluate_tflite_model_spec demoInterp id [5, 0] [1, 0] rfl⟩

/-- C4: after the division by 255.0, every pixel of every train and test
image lies in the closed interval [0, 1], provided the raw pixels are
8-bit values (at most 255). -/
theorem normalized_dataset_in_unit_interval
    (train_images test_images : List (List (List Nat)))
    (htrain : ∀ img ∈ train_images, eightBitImage img)
    (htest : ∀ img ∈ test_images, eightBitImage img) :
    (∀ img ∈ normalize_images train_images, ∀ row ∈ img, ∀ q ∈ row, 0 ≤ q ∧ q ≤ 1) ∧
    (∀ img ∈ normalize_images test_images, ∀ row ∈ img, ∀ q ∈ row, 0 ≤ q ∧ q ≤ 1) := by
  constructor <;>
  · intro img himg row hrow q hq
    simp only [normalize_images, normalize_image, List.mem_map] at himg
    obtain ⟨img0, himg0, rfl⟩ := himg
    simp only [List.mem_map] at hrow
    obtain ⟨row0, hrow0, rfl⟩ := hrow
    simp only [List.mem_map] at hq
    obtain ⟨p, hp, rfl⟩ := hq
    first
    | exact normalize_pixel_bounds p (htrain img0 himg0 row0 hrow0 p hp)
    | exact normalize_pixel_bounds p (htest img0 himg0 row0 hrow0 p hp)

/-- Witness for C4 on a concrete two-image dataset. -/
theorem normalized_dataset_in_unit_interval_witness :
    (∀ img ∈ ([[[0, 255]]] : List (List (List Nat))), eightBitImage img) ∧
    (∀ img ∈ ([[[128], [7]]] : List (List (List Nat))), eightBitImage img) ∧
    ((∀ img ∈ normalize_images [[[0, 255]]], ∀ row ∈ img, ∀ q ∈ row, 0 ≤ q ∧ q ≤ 1) ∧
     (∀ img ∈ normalize_images [[[128], [7]]], ∀ row ∈ img, ∀ q ∈ row, 0 ≤ q ∧ q ≤ 1)) :=
  ⟨by simp [eightBitImage], by simp [eightBitImage],
   normalized_dataset_in_unit_interval [[[0, 255]]] [[[128], [7]]]
     (by simp [eightBitImage]) (by simp [eightBitImage])⟩

/-- C10: `print_metric` prints exactly one line per entry, in the dict's
insertion order, each formatted as `<metric_name> for <key>: <value>`, and
the dictionary after the call is the dictionary before the call. -/
theorem print_metric_spec {V : Type} (toStr : V → String)
    (metric_dict : List (String × V)) (metric_name : String) :
    print_metric_run toStr metric_dict metric_name =
      (metric_dict.map (fun kv => metric_name ++ " for " ++ kv.1 ++ ": " ++ toStr kv.2),
       metric_dict) := by
  unfold print_metric_run
  rw [print_metric_eq_map]

/-- C8: `convert_tflite` returns `None` (the converted bytes are only
written to `filename`, never returned), and the converter's
`optimizations` attribute is set (to `[tf.lite.Optimize.DEFAULT]`) iff
`quantize` is true, given that `from_keras_model` yields a converter with
the attribute unset. -/
theorem convert_tflite_spec {Model : Type} (env : ConvertEnv Model) (fs : FileSys)
    (model : Model) (filename : String) (quantize : Bool)
    (hinit : (env.from_keras_model model).optimizations = none) :
    (convert_tflite env fs model filename quantize).2 = none ∧
    fsLookup (convert_tflite env fs model filename quantize).1 filename =
      some (FileContent.plain (env.runConvert (configure_converter env model quantize))) ∧
    ((configure_converter env model quantize).optimizations ≠ none ↔ quantize = true) := by
  refine ⟨rfl, ?_, ?_⟩
  · unfold convert_tflite fsLookup fsWrite
    exact dictLookup_assign_self fs filename _
  · unfold configure_converter
    cases quantize <;> simp [hinit]

/-- A conversion environment for the witness. -/
def demoConvertEnv : ConvertEnv Unit :=
  { from_keras_model := fun m => { model := m, optimizations := none },
    runConvert := fun _ => [1, 2, 3] }

/-- Witness for C8 at the pruned-model conversion call
(`pruned_quantized_tflite = convert_tflite(...)` binds `None`). -/
theorem convert_tflite_spec_witness :
    (demoConvertEnv.from_keras_model ()).optimizations = none ∧
    ((convert_tflite demoConvertEnv [] () FILE_PRUNED_QUANTIZED_TFLITE true).2 = none ∧
     fsLookup (convert_tflite demoConvertEnv [] () FILE_PRUNED_QUANTIZED_TFLITE true).1
         FILE_PRUNED_QUANTIZED_TFLITE =
       some (FileContent.plain (demoConvertEnv.runConvert
               (configure_converter demoConvertEnv () true))) ∧
     ((configure_converter demoConvertEnv () true).optimizations ≠ none ↔ true = true)) :=
  ⟨rfl, convert_tflite_spec demoConvertEnv [] () FILE_PRUNED_QUANTIZED_TFLITE true rfl⟩

/-- C9: on an existing input file, `get_gzipped_model_size` creates a fresh
temporary ZIP archive (DEFLATE compression) containing exactly the one
input file, returns the archive's size in bytes, leaves the input file
intact and every other file untouched, and leaves the archive on disk. -/
theorem get_gzipped_model_size_spec (env : ZipEnv) (fs : FileSys) (file : String)
    (data : List Nat)
    (hfile : fsLookup fs file = some (FileContent.plain data))
    (hfresh : fsLookup fs (env.mkstemp_name fs) = none) :
    ∃ fs' n,
      get_gzipped_model_size env fs file = some (fs', n) ∧
      fsLookup fs' (env.mkstemp_name fs) =
        some (FileContent.zipArchive CompressionMethod.ZIP_DEFLATED [(file, data)]) ∧
      n = env.archiveSize CompressionMethod.ZIP_DEFLATED [(file, data)] ∧
      fsLookup fs' file = some (FileContent.plain data) ∧
      (∀ g, g ≠ env.mkstemp_name fs → fsLookup fs' g = fsLookup fs g) := by
  have hfz : file ≠ env.mkstemp_name fs := by
    intro h
    rw [h, hfresh] at hfile
    exact Option.noConfusion hfile
  have h1 : fsLookup (fsWrite fs (env.mkstemp_name fs) (FileContent.plain [])) file =
      some (FileContent.plain data) := by
    unfold fsLookup fsWrite
    rw [dictLookup_assign_other fs (env.mkstemp_name fs) file _ hfz]
    exact hfile
  refine ⟨fsWrite (fsWrite fs (env.mkstemp_name fs) (FileContent.plain []))
            (env.mkstemp_name fs)
            (FileContent.zipArchive CompressionMethod.ZIP_DEFLATED [(file, data)]),
          env.archiveSize CompressionMethod.ZIP_DEFLATED [(file, data)],
          ?_, ?_, rfl, ?_, ?_⟩
  · simp only [get_gzipped_model_size, h1]
    unfold os_path_getsize fsLookup fsWrite
    rw [dictLookup_assign_self]
    rfl
  · unfold fsLookup fsWrite
    exact dictLookup_assign_self _ _ _
  · unfold fsLookup fsWrite
    rw [dictLookup_assign_other _ _ _ _ hfz, dictLookup_assign_other _ _ _ _ hfz]
    exact hfile
  · intro g hg
    unfold fsLookup fsWrite
    rw [dictLookup_assign_other _ _ _ _ hg, dictLookup_assign_other _ _ _ _ hg]

/-- A temp-name and archive-size environment for the witness. -/
def demoZipEnv : ZipEnv :=
  { mkstemp_name := fun _ => "tmpa1b2c3.zip",
    archiveSize := fun _ entries => entries.length + 22 }

/-- Witness for C9 on a one-file directory. -/
theorem get_gzipped_model_size_spec_witness :
    fsLookup [("non_quantized.h5", FileContent.plain [1, 2, 3])] "non_quantized.h5" =
      some (FileContent.plain [1, 2, 3]) ∧
    fsLookup [("non_quantized.h5", FileContent.plain [1, 2, 3])]
        (demoZipEnv.mkstemp_name [("non_quantized.h5", FileContent.plain [1, 2, 3])]) = none ∧
    (∃ fs' n,
      get_gzipped_model_size demoZipEnv [("non_quantized.h5", FileContent.plain [1, 2, 3])]
          "non_quantized.h5" = some (fs', n) ∧
      fsLookup fs'
          (demoZipEnv.mkstemp_name [("non_quantized.h5", FileContent.plain [1, 2, 3])]) =
        some (FileContent.zipArchive CompressionMethod.ZIP_DEFLATED
                [("non_quantized.h5", [1, 2, 3])]) ∧
      n = demoZipEnv.archiveSize CompressionMethod.ZIP_DEFLATED
            [("non_quantized.h5", [1, 2, 3])] ∧
      fsLookup fs' "non_quantized.h5" = some (FileContent.plain [1, 2, 3]) ∧
      (∀ g, g ≠ demoZipEnv.mkstemp_name [("non_quantized.h5", FileContent.plain [1, 2, 3])] →
        fsLookup fs' g =
          fsLookup [("non_quantized.h5", FileContent.plain [1, 2, 3])] g)) :=
  ⟨by decide, by decide,
   get_gzipped_model_size_spec demoZipEnv
     [("non_quantized.h5", FileContent.plain [1, 2, 3])] "non_quantized.h5" [1, 2, 3]
     (by decide) (by decide)⟩

theorem except_bind_error {E A B : Type} (e : E) (f : A → Except E B) :
    (Except.error e >>= f) = Except.error e := rfl

theorem except_bind_ok {E A B : Type} (a : A) (f : A → Except E B) :
    (Except.ok a >>= f) = f a := rfl

/-- C5: none of the authored functions catches or transforms exceptions.
For each authored function and each of its underlying framework or I/O
calls, if that call raises `e` (all calls before it succeeding), the
function's result is exactly `Except.error e`: no recovery, retry or
rewrapping.  The two loop clauses quantify over an arbitrary list suffix
and accumulator, so they cover a raise at any iteration of the loop. -/
theorem framework_errors_propagate_unchanged :
    -- get_gzipped_model_size: tempfile.mkstemp raises
    (∀ (E : Type) (io : ZipPrims E) (file : String) (e : E),
        io.mkstemp = Except.error e →
        get_gzipped_model_size_exc io file = Except.error e) ∧
    -- get_gzipped_model_size: ZipFile(...).write raises
    (∀ (E : Type) (io : ZipPrims E) (file z : String) (e : E),
        io.mkstemp = Except.ok z →
        io.zipWriteEntry z file = Except.error e →
        get_gzipped_model_size_exc io file = Except.error e) ∧
    -- get_gzipped_model_size: os.path.getsize raises
    (∀ (E : Type) (io : ZipPrims E) (file z : String) (e : E),
        io.mkstemp = Except.ok z →
        io.zipWriteEntry z file = Except.ok () →
        io.getsize z = Except.error e →
        get_gzipped_model_size_exc io file = Except.error e) ∧
    -- convert_tflite: from_keras_model raises
    (∀ (E Model Bytes : Type) (p : ConvertPrims E Model Bytes) (m : Model)
        (f : String) (q : Bool) (e : E),
        p.from_keras_model m = Except.error e →
        convert_tflite_exc p m f q = Except.error e) ∧
    -- convert_tflite: converter.convert() raises
    (∀ (E Model Bytes : Type) (p : ConvertPrims E Model Bytes) (m : Model)
        (f : String) (q : Bool) (c : TFLiteConverter Model) (e : E),
        p.from_keras_model m = Except.ok c →
        p.runConvert
            (if q then { c with optimizations := some [OptimizeFlag.DEFAULT] } else c) =
          Except.error e →
        convert_tflite_exc p m f q = Except.error e) ∧
    -- convert_tflite: the file write raises
    (∀ (E Model Bytes : Type) (p : ConvertPrims E Model Bytes) (m : Model)
        (f : String) (q : Bool) (c : TFLiteConverter Model) (b : Bytes) (e : E),
        p.from_keras_model m = Except.ok c →
        p.runConvert
            (if q then { c with optimizations := some [OptimizeFlag.DEFAULT] } else c) =
          Except.ok b →
        p.openWrite f b = Except.error e →
        convert_tflite_exc p m f q = Except.error e) ∧
    -- evaluate_tflite_model: tf.lite.Interpreter raises
    (∀ (E Img H : Type) (p : InterpPrims E Img H) (f : String)
        (x : List Img) (y : List Nat) (e : E),
        p.mkInterpreter f = Except.error e →
        evaluate_tflite_model_exc p f x y = Except.error e) ∧
    -- evaluate_tflite_model: allocate_tensors raises
    (∀ (E Img H : Type) (p : InterpPrims E Img H) (f : String)
        (x : List Img) (y : List Nat) (h : H) (e : E),
        p.mkInterpreter f = Except.ok h →
        p.allocate_tensors h = Except.error e →
        evaluate_tflite_model_exc p f x y = Except.error e) ∧
    -- evaluate_tflite_model: either detail lookup raises
    (∀ (E Img H : Type) (p : InterpPrims E Img H) (f : String)
        (x : List Img) (y : List Nat) (h : H) (e : E),
        p.mkInterpreter f = Except.ok h →
        p.allocate_tensors h = Except.ok () →
        p.input_index h = Except.error e →
        evaluate_tflite_model_exc p f x y = Except.error e) ∧
    (∀ (E Img H : Type) (p : InterpPrims E Img H) (f : String)
        (x : List Img) (y : List Nat) (h : H) (ii : Nat) (e : E),
        p.mkInterpreter f = Except.ok h →
        p.allocate_tensors h = Except.ok () →
        p.input_index h = Except.ok ii →
        p.output_index h = Except.error e →
        evaluate_tflite_model_exc p f x y = Except.error e) ∧
    -- evaluate_tflite_model: a raise inside the prediction loop propagates
    (∀ (E Img H : Type) (p : InterpPrims E Img H) (f : String)
        (x : List Img) (y : List Nat) (h : H) (ii oi : Nat) (e : E),
        p.mkInterpreter f = Except.ok h →
        p.allocate_tensors h = Except.ok () →
        p.input_index h = Except.ok ii →
        p.output_index h = Except.ok oi →
        prediction_loop_exc p h ii oi x [] = Except.error e →
        evaluate_tflite_model_exc p f x y = Except.error e) ∧
    -- the loop: set_tensor, invoke, or the output read raises (any suffix)
    (∀ (E Img H : Type) (p : InterpPrims E Img H) (h : H) (ii oi : Nat)
        (img : Img) (rest : List Img) (acc : List Nat) (e : E),
        p.set_tensor h ii ([img].map p.cast32) = Except.error e →
        prediction_loop_exc p h ii oi (img :: rest) acc = Except.error e) ∧
    (∀ (E Img H : Type) (p : InterpPrims E Img H) (h : H) (ii oi : Nat)
        (img : Img) (rest : List Img) (acc : List Nat) (e : E),
        p.set_tensor h ii ([img].map p.cast32) = Except.ok () →
        p.invoke h = Except.error e →
        prediction_loop_exc p h ii oi (img :: rest) acc = Except.error e) ∧
    (∀ (E Img H : Type) (p : InterpPrims E Img H) (h : H) (ii oi : Nat)
        (img : Img) (rest : List Img) (acc : List Nat) (e : E),
        p.set_tensor h ii ([img].map p.cast32) = Except.ok () →
        p.invoke h = Except.ok () →
        p.read_output h oi = Except.error e →
        prediction_loop_exc p h ii oi (img :: rest) acc = Except.error e) ∧
    -- print_metric: print raises (any suffix of the dict)
    (∀ (E V : Type) (printLine : String → Except E Unit) (toStr : V → String)
        (metric : String) (value : V) (rest : List (String × V)) (name : String) (e : E),
        printLine (name ++ " for " ++ metric ++ ": " ++ toStr value) = Except.error e →
        print_metric_exc printLine toStr ((metric, value) :: rest) name = Except.error e) ∧
    -- model_builder: a layer constructor raises
    (∀ (E Layer Model : Type) (k : KerasPrims E Layer Model) (e : E),
        k.inputLayer = Except.error e →
        model_builder_exc k = Except.error e) ∧
    -- model_builder: Sequential raises after all layers are built
    (∀ (E Layer Model : Type) (k : KerasPrims E Layer Model)
        (l1 l2 l3 l4 l5 l6 : Layer) (e : E),
        k.inputLayer = Except.ok l1 → k.reshape = Except.ok l2 →
        k.conv2d = Except.ok l3 → k.maxPooling2d = Except.ok l4 →
        k.flatten = Except.ok l5 → k.dense = Except.ok l6 →
        k.sequential [l1, l2, l3, l4, l5, l6] = Except.error e →
        model_builder_exc k = Except.error e) := by
  refine ⟨?_, ?_, ?_, ?_, ?_, ?_, ?_, ?_, ?_, ?_, ?_, ?_, ?_, ?_, ?_, ?_, ?_⟩
  · intro E io file e h1
    simp only [get_gzipped_model_size_exc, h1, except_bind_error]
  · intro E io file z e h1 h2
    simp only [get_gzipped_model_size_exc, h1, except_bind_ok, h2, except_bind_error]
  · intro E io file z e h1 h2 h3
    simp only [get_gzipped_model_size_exc, h1, except_bind_ok, h2, h3]
  · intro E Model Bytes p m f q e h1
    simp only [convert_tflite_exc, h1, except_bind_error]
  · intro E Model Bytes p m f q c e h1 h2
    simp only [convert_tflite_exc, h1, except_bind_ok, h2, except_bind_error]
  · intro E Model Bytes p m f q c b e h1 h2 h3
    simp only [convert_tflite_exc, h1, except_bind_ok, h2, h3, except_bind_error]
  · intro E Img H p f x y e h1
    simp only [evaluate_tflite_model_exc, h1, except_bind_error]
  · intro E Img H p f x y h e h1 h2
    simp only [evaluate_tflite_model_exc, h1, except_bind_ok, h2, except_bind_error]
  · intro E Img H p f x y h e h1 h2 h3
    simp only [evaluate_tflite_model_exc, h1, except_bind_ok, h2, h3, except_bind_error]
  · intro E Img H p f x y h ii e h1 h2 h3 h4
    simp only [evaluate_tflite_model_exc, h1, except_bind_ok, h2, h3, h4, except_bind_error]
  · intro E Img H p f x y h ii oi e h1 h2 h3 h4 h5
    simp only [evaluate_tflite_model_exc, h1, except_bind_ok, h2, h3, h4, h5,
               except_bind_error]
  · intro E Img H p h ii oi img rest acc e h1
    simp only [prediction_loop_exc, h1, except_bind_error]
  · intro E Img H p h ii oi img rest acc e h1 h2
    simp only [prediction_loop_exc, h1, except_bind_ok, h2, except_bind_error]
  · intro E Img H p h ii oi img rest acc e h1 h2 h3
    simp only [prediction_loop_exc, h1, except_bind_ok, h2, h3, except_bind_error]
  · intro E V printLine toStr metric value rest name e h1
    simp only [print_metric_exc, h1, except_bind_error]
  · intro E Layer Model k e h1
    simp only [model_builder_exc, h1, except_bind_error]
  · intro E Layer Model k l1 l2 l3 l4 l5 l6 e h1 h2 h3 h4 h5 h6 h7
    simp only [model_builder_exc, h1, except_bind_ok, h2, h3, h4, h5, h6, h7]

/-- A primitive set whose `mkstemp` raises, for the witness. -/
def failingZipPrims : ZipPrims String :=
  { mkstemp := Except.error "OSError",
    zipWriteEntry := fun _ _ => Except.ok (),
    getsize := fun _ => Except.ok 0 }

/-- A primitive set whose converter raises, for the witness. -/
def failingConvertPrims : ConvertPrims String Unit (List Nat) :=
  { from_keras_model := fun _ => Except.error "ConverterError",
    runConvert := fun _ => Except.ok [],
    openWrite := fun _ _ => Except.ok () }

/-- Witness for C5: a raised `OSError` in `mkstemp` and a raised
`ConverterError` in `from_keras_model` surface unchanged. -/
theorem framework_errors_propagate_unchanged_witness :
    get_gzipped_model_size_exc failingZipPrims "non_quantized.h5" =
      Except.error "OSError" ∧
    convert_tflite_exc failingConvertPrims () "non_quantized.tflite" false =
      Except.error "ConverterError" :=
  ⟨framework_errors_propagate_unchanged.1 String failingZipPrims
     "non_quantized.h5" "OSError" rfl,
   framework_errors_propagate_unchanged.2.2.2.1 String Unit (List Nat)
     failingConvertPrims () "non_quantized.tflite" false "ConverterError" rfl⟩

/-- C2 counterexample: the metric tables do NOT accumulate across the whole
run.  The QAT and pruning cells rebind `ACCURACY = {}` / `MODEL_SIZE = {}`;
after the full run the baseline accuracy entry and the non-quantized
tflite size entry are gone, and no cell ever records a model size for the
quantization-aware model. -/
theorem metric_tables_not_accumulated :
    Act.resetAcc ∈ notebookTrace ∧
    Act.resetSize ∈ notebookTrace ∧
    dictLookup notebookFinal.accuracyTab "baseline Keras model" = none ∧
    dictLookup notebookFinal.modelSizeTab "non quantized tflite" = none ∧
    notebookTrace.all (fun a => !(Act.sizesFile FILE_QAT_QUANTIZED a)) = true := by
  decide

/-- C2 amended: the baseline and post-training-quantization stages record
and print both size and accuracy, accumulating into the two tables; the
QAT stage rebinds `ACCURACY` to `{}` and records only accuracies (no model
size is ever recorded for the QAT model); the pruning stage rebinds both
tables before recording its entries.  Each table is printed six times. -/
theorem metric_tables_staged :
    dictKeys (runTrace (notebookTrace.take 20)).accuracyTab =
      ["baseline Keras model", "non quantized tflite",
       "post training quantized tflite"] ∧
    dictKeys (runTrace (notebookTrace.take 20)).modelSizeTab =
      ["baseline h5", "non quantized tflite", "post training quantized tflite"] ∧
    dictKeys notebookFinal.accuracyTab =
      ["pruned model h5", "pruned and quantized tflite"] ∧
    dictKeys notebookFinal.modelSizeTab =
      ["baseline h5", "pruned non quantized h5", "pruned quantized tflite"] ∧
    (notebookTrace.filter Act.isResetAcc).length = 2 ∧
    (notebookTrace.filter Act.isResetSize).length = 2 ∧
    notebookTrace.all (fun a => !(Act.sizesFile FILE_QAT_QUANTIZED a)) = true ∧
    (notebookTrace.filter Act.isPrintAcc).length = 6 ∧
    (notebookTrace.filter Act.isPrintSize).length = 6 := by
  decide

/-- C3 counterexample: the filename constant
`FILE_PRUNED_NON_QUANTIZED_TFLITE` is declared but no cell ever writes
that file, and the three gzipped-size measurements each produce an extra
temporary zip archive beyond the declared artifacts. -/
theorem pruned_non_quantized_tflite_never_written :
    FILE_PRUNED_NON_QUANTIZED_TFLITE ∈ declaredFileConstants ∧
    FILE_PRUNED_NON_QUANTIZED_TFLITE ∉ notebookFinal.filesWritten ∧
    0 < notebookFinal.tempZipCount := by
  decide

/-- C3 amended: the workflow writes exactly seven named artifact files, in
this order: the weights checkpoint, the two uncompressed Keras exports and
the four TF Lite conversions — `pruned_non_quantized.tflite` is declared
but never written — plus three anonymous temporary zip archives from the
gzipped-size measurements. -/
theorem notebook_artifact_files :
    notebookFinal.filesWritten =
      [FILE_WEIGHTS, FILE_NON_QUANTIZED_H5, FILE_NON_QUANTIZED_TFLITE,
       FILE_PT_QUANTIZED, FILE_QAT_QUANTIZED, FILE_PRUNED_MODEL_H5,
       FILE_PRUNED_QUANTIZED_TFLITE] ∧
    notebookFinal.tempZipCount = 3 ∧
    FILE_PRUNED_NON_QUANTIZED_TFLITE ∉ notebookFinal.filesWritten := by
  decide

/-- C6: the workflow is one fixed linear statement sequence
(`notebookTrace`): the dataset load precedes every training step, the
baseline training precedes every TF Lite conversion, every named file is
written before any statement measures its size or accuracy, and the three
compression techniques run strictly one after another (all
post-training-quantization statements precede all quantization-aware
statements, which precede all pruning statements). -/
theorem notebook_stage_order :
    (∀ j, j < notebookTrace.length →
        Act.isFit (notebookTrace.getD j Act.resetAcc) = true →
        ((notebookTrace.take j).any Act.isLoadData) = true) ∧
    (∀ j, j < notebookTrace.length →
        Act.isConvert (notebookTrace.getD j Act.resetAcc) = true →
        ((notebookTrace.take j).any (fun a => a == Act.fitModel "baseline_model")) = true) ∧
    (∀ file ∈ declaredFileConstants, ∀ j, j < notebookTrace.length →
        Act.measuresFile file (notebookTrace.getD j Act.resetAcc) = true →
        ((notebookTrace.take j).any (Act.writesFile file)) = true) ∧
    (∀ i, i < notebookTrace.length → ∀ j, j < notebookTrace.length →
        Act.inPTQ (notebookTrace.getD i Act.resetAcc) = true →
        Act.inQAT (notebookTrace.getD j Act.resetAcc) = true → i < j) ∧
    (∀ i, i < notebookTrace.length → ∀ j, j < notebookTrace.length →
        Act.inQAT (notebookTrace.getD i Act.resetAcc) = true →
        Act.inPruning (notebookTrace.getD j Act.resetAcc) = true → i < j) := by
  decide

/-- Witness for C6: statement 4 is the baseline `fit` and the load comes
earlier; statement 13 measures `non_quantized.tflite`, which statement 10
wrote. -/
theorem notebook_stage_order_witness :
    (4 < notebookTrace.length ∧
     Act.isFit (notebookTrace.getD 4 Act.resetAcc) = true ∧
     ((notebookTrace.take 4).any Act.isLoadData) = true) ∧
    (FILE_NON_QUANTIZED_TFLITE ∈ declaredFileConstants ∧
     13 < notebookTrace.length ∧
     Act.measuresFile FILE_NON_QUANTIZED_TFLITE (notebookTrace.getD 13 Act.resetAcc) = true ∧
     ((notebookTrace.take 13).any (Act.writesFile FILE_NON_QUANTIZED_TFLITE)) = true) :=
  ⟨⟨by decide, by decide, notebook_stage_order.1 4 (by decide) (by decide)⟩,
   ⟨by decide, by decide, by decide,
    notebook_stage_order.2.2.1 FILE_NON_QUANTIZED_TFLITE (by decide) 13
      (by decide) (by decide)⟩⟩

end QuantizationPruning
